import Mathlib

/-! Endpoint resolve options and the instrumented AWS session.

A shallow embedding of

* `pkg/backend/endpoint_types.go`: `EndpointResolveOptions`, its functional
  options and `defaultEndpointResolveOptions`;
* `internal/aws/albsession/session.go`: `NewSession` and the three hooks it
  pushes to the front of the session's handler chains.

Go slices are lists (a nil slice is the empty list), a Go function that mutates
its receiver through a pointer returns the new value, and the effects of the
session code (collector calls, glog lines) are threaded through an explicit
`World`.
-/

/-! ## pkg/backend/endpoint_types.go -/

namespace labels

/-- The label set of an object (`labels.Set`, a `map[string]string`), as an
association list. -/
abbrev Set := List (String × String)

/-- Modelled from the spec: `labels.Selector` is an interface of
k8s.io/apimachinery, which is not part of the sources. Only its `Matches` method
is relevant here, so a selector is the predicate it computes on label sets. -/
structure Selector where
  Matches : Set → Bool

/-- Modelled from the spec: `labels.Nothing()` of k8s.io/apimachinery is not part
of the sources. The spec ("default: matches no node") and the field comment of
`NodeSelector` ("By default, no node will be selected") fix its behaviour: it
matches no label set. -/
def Nothing : Selector := ⟨fun _ => false⟩

end labels

namespace netip

/-- An address range (`netip.Prefix`): the address bytes and the number of
leading bits that are significant. -/
structure Prefix where
  ip : List Nat
  bits : Nat
  deriving DecidableEq, Repr

end netip

namespace backend

/-- The type of a pod condition (`corev1.PodConditionType`, a string type). -/
abbrev PodConditionType := String

/-- Options for the endpoint resolve APIs (`EndpointResolveOptions`). -/
structure EndpointResolveOptions where
  NodeSelector : labels.Selector
  PodReadinessGates : List PodConditionType
  cidrs : List netip.Prefix

/-- An option is a function that updates the options it is given
(`type EndpointResolveOption func(opts *EndpointResolveOptions)`). -/
abbrev EndpointResolveOption := EndpointResolveOptions → EndpointResolveOptions

/-- The loop of `ApplyOptions`, `for _, option := range options { option(opts) }`:
the first option is applied, then the remaining ones to the updated value. -/
def EndpointResolveOptions.ApplyOptions (opts : EndpointResolveOptions) :
    List EndpointResolveOption → EndpointResolveOptions
  | [] => opts
  | option :: options => EndpointResolveOptions.ApplyOptions (option opts) options

/-- `WithNodeSelector`: `opts.NodeSelector = nodeSelector`. -/
def WithNodeSelector (nodeSelector : labels.Selector) : EndpointResolveOption :=
  fun opts => { opts with NodeSelector := nodeSelector }

/-- `WithPodReadinessGate`:
`opts.PodReadinessGates = append(opts.PodReadinessGates, cond)`. -/
def WithPodReadinessGate (cond : PodConditionType) : EndpointResolveOption :=
  fun opts => { opts with PodReadinessGates := opts.PodReadinessGates ++ [cond] }

/-- `WithCIDRRanges`: `opts.cidrs = cidrs`. -/
def WithCIDRRanges (cidrs : List netip.Prefix) : EndpointResolveOption :=
  fun opts => { opts with cidrs := cidrs }

/-- `defaultEndpointResolveOptions`: the selector is `labels.Nothing()`, the
readiness gates are nil, and `cidrs`, which the literal does not mention, has
its zero value nil. -/
def defaultEndpointResolveOptions : EndpointResolveOptions :=
  { NodeSelector := labels.Nothing
    PodReadinessGates := []
    cidrs := [] }

/-- The range 10.0.0.0/24. -/
def cidrA : netip.Prefix := ⟨[10, 0, 0, 0], 24⟩

/-- The range 10.0.1.0/24. -/
def cidrB : netip.Prefix := ⟨[10, 0, 1, 0], 24⟩

end backend

/-! ## internal/aws/albsession/session.go -/

namespace albsession

/-- Metric labels (`prometheus.Labels`, a `map[string]string`), written as the
key/value pairs of the map literal in the order of the source. -/
abbrev Labels := List (String × String)

/-- Modelled from the spec: the interface `metric.Collector`
(internal/ingress/metric) is not part of the sources. `NewSession` uses three of
its operations, "increment-API-error(labels), increment-API-retry(labels),
increment-API-request(labels)"; a collector with state `κ` is given by what each
of them does to that state. -/
structure Collector (κ : Type) where
  IncAPIErrorCount : Labels → κ → κ
  IncAPIRetryCount : Labels → κ → κ
  IncAPIRequestCount : Labels → κ → κ

/-- The three counters of a collector. -/
inductive Counter where
  | APIError
  | APIRetry
  | APIRequest
  deriving DecidableEq, Repr

/-- One increment received by a collector: which counter, with which labels. -/
structure Increment where
  counter : Counter
  labels : Labels
  deriving DecidableEq, Repr

/-- The collector that keeps the sequence of increments it has received, oldest
first. -/
def recorder : Collector (List Increment) where
  IncAPIErrorCount := fun l k => k ++ [⟨Counter.APIError, l⟩]
  IncAPIRetryCount := fun l k => k ++ [⟨Counter.APIRetry, l⟩]
  IncAPIRequestCount := fun l k => k ++ [⟨Counter.APIRequest, l⟩]

/-- The state reached by sending a sequence of increments to a collector. -/
def Collector.replay {κ : Type} (mc : Collector κ) : List Increment → κ → κ
  | [], k => k
  | ⟨Counter.APIError, l⟩ :: rest, k => Collector.replay mc rest (mc.IncAPIErrorCount l k)
  | ⟨Counter.APIRetry, l⟩ :: rest, k => Collector.replay mc rest (mc.IncAPIRetryCount l k)
  | ⟨Counter.APIRequest, l⟩ :: rest, k => Collector.replay mc rest (mc.IncAPIRequestCount l k)

/-- The glog calls of `NewSession`, one constructor per call site, carrying the
arguments of its format string. -/
inductive LogLine where
  /-- The line `glog.ErrorDepth(4, "Failed to create AWS session: %s")`. -/
  | sessionFailed (err : String)
  /-- The line `glog.InfoDepth(4, "Request: %s/%s, Payload: %s")`. -/
  | requestPayload (service operation params : String)
  /-- The line `glog.Infof("cached [%v] service [%s.%s] duration [%v]")`. -/
  | completed (cached : Bool) (service operation : String) (duration : Nat)
  /-- The line `glog.ErrorDepth(4, "Failed request: %s/%s, Payload: %s, Error: %s")`. -/
  | failedRequest (service operation params err : String)
  deriving DecidableEq, Repr

/-- What the code of `NewSession` acts on: the state of the collector `mc` and
the lines written to glog, oldest first. -/
structure World (κ : Type) where
  collector : κ
  glog : List LogLine

/-- The field `ClientInfo` of a request (`metadata.ClientInfo`). -/
structure ClientInfo where
  ServiceName : String
  deriving DecidableEq, Repr

/-- The field `Operation` of a request (`request.Operation`). -/
structure Operation where
  Name : String
  deriving DecidableEq, Repr

/-- The context of a request's HTTP request, with the two values the hooks read
from it: `cache.IsCacheHit(ctx)` and `timing.GetData(ctx).RequestDuration()`. -/
structure Context where
  IsCacheHit : Bool
  RequestDuration : Nat
  deriving DecidableEq, Repr

/-- Modelled from the spec: `request.Request` of the AWS SDK is not part of the
sources; these are the fields the hooks read. `Params` is the payload that
`log.Prettify` renders, `Error` is `none` for a nil error and otherwise the
error's text, and `Context` is `r.HTTPRequest.Context()` (the SDK builds every
request with an HTTP request). -/
structure Request where
  ClientInfo : ClientInfo
  Operation : Operation
  Params : String
  Error : Option String
  Context : Context
  deriving DecidableEq, Repr

/-- A request handler (`func(*request.Request)`): it may update the request and
act on the world. -/
abbrev Handler (κ : Type) := Request → World κ → Request × World κ

/-- A handler chain (`request.HandlerList`), first handler first. -/
abbrev HandlerList (κ : Type) := List (Handler κ)

/-- Modelled from the spec: `HandlerList.PushFront` of the AWS SDK is not part of
the sources; it puts the handler "at front of" the chain. -/
def HandlerList.PushFront {κ : Type} (l : HandlerList κ) (f : Handler κ) : HandlerList κ :=
  f :: l

/-- The handler chains of a session that `NewSession` pushes to
(`request.Handlers`). -/
structure Handlers (κ : Type) where
  Send : HandlerList κ
  Retry : HandlerList κ
  Complete : HandlerList κ

/-- Modelled from the spec: `session.Session` of the AWS SDK is not part of the
sources; a session carries its handler chains. -/
structure Session (κ : Type) where
  Handlers : Handlers κ

/-- The functions of other packages that `NewSession` calls: `session.NewSession`
(the session or the text of the error), `cache.AddCaching` and
`timing.AddTiming` (both update the session they are given). None of them
receives the collector. -/
structure SDK (Cfg CC κ : Type) where
  NewSession : Cfg → Except String (Session κ)
  AddCaching : Session κ → CC → Session κ
  AddTiming : Session κ → Session κ

/-- The labels `{"service": r.ClientInfo.ServiceName, "operation": r.Operation.Name}`. -/
def requestLabels (r : Request) : Labels :=
  [("service", r.ClientInfo.ServiceName), ("operation", r.Operation.Name)]

/-- The handler pushed to the front of `Handlers.Retry` (session.go, lines 31-33). -/
def retryHook {κ : Type} (mc : Collector κ) : Handler κ :=
  fun r w =>
    let w := { w with collector := mc.IncAPIRetryCount (requestLabels r) w.collector }
    (r, w)

/-- The handler pushed to the front of `Handlers.Send` (session.go, lines 35-40). -/
def sendHook {κ : Type} (AWSDebug : Bool) (mc : Collector κ) : Handler κ :=
  fun r w =>
    let w := { w with collector := mc.IncAPIRequestCount (requestLabels r) w.collector }
    let w :=
      if AWSDebug then
        { w with glog := w.glog ++
            [LogLine.requestPayload r.ClientInfo.ServiceName r.Operation.Name r.Params] }
      else w
    (r, w)

/-- The handler pushed to the front of `Handlers.Complete` (session.go, lines 42-59). -/
def completeHook {κ : Type} (AWSDebug : Bool) (mc : Collector κ) : Handler κ :=
  fun r w =>
    let ctx := r.Context
    let w := { w with glog := w.glog ++
      [LogLine.completed ctx.IsCacheHit r.ClientInfo.ServiceName r.Operation.Name
        ctx.RequestDuration] }
    let w :=
      match r.Error with
      | some err =>
        let w := { w with collector := mc.IncAPIErrorCount (requestLabels r) w.collector }
        if AWSDebug then
          { w with glog := w.glog ++
              [LogLine.failedRequest r.ClientInfo.ServiceName r.Operation.Name r.Params err] }
        else w
      | none => w
    (r, w)

/-- `NewSession`: the session, or `none` for the nil result, and the world after
the call. -/
def NewSession {Cfg CC κ : Type} (sdk : SDK Cfg CC κ) (awsconfig : Cfg) (AWSDebug : Bool)
    (mc : Collector κ) (cc : CC) (w : World κ) : Option (Session κ) × World κ :=
  match sdk.NewSession awsconfig with
  | Except.error err =>
    let w := { w with collector :=
      mc.IncAPIErrorCount [("service", "AWS"), ("request", "NewSession")] w.collector }
    let w := { w with glog := w.glog ++ [LogLine.sessionFailed err] }
    (none, w)
  | Except.ok session =>
    let session := sdk.AddCaching session cc
    let session := sdk.AddTiming session
    let session : Session κ := { session with Handlers :=
      { session.Handlers with Retry := session.Handlers.Retry.PushFront (retryHook mc) } }
    let session : Session κ := { session with Handlers :=
      { session.Handlers with Send := session.Handlers.Send.PushFront (sendHook AWSDebug mc) } }
    let session : Session κ := { session with Handlers :=
      { session.Handlers with
        Complete := session.Handlers.Complete.PushFront (completeHook AWSDebug mc) } }
    (some session, w)

/-- One invocation of a chain on a request, as the SDK makes them while it
performs an API call. -/
inductive HookCall where
  | Retry (r : Request)
  | Send (r : Request)
  | Complete (r : Request)
  deriving DecidableEq, Repr

/-- Runs the handler at the front of a chain; an empty chain does nothing. -/
def HandlerList.runFront {κ : Type} (l : HandlerList κ) (r : Request) (w : World κ) :
    Request × World κ :=
  match l with
  | [] => (r, w)
  | f :: _ => f r w

/-- The effect of one invocation on the world, through the handler at the front
of the session's chain of that kind. -/
def Session.invoke {κ : Type} (s : Session κ) : HookCall → World κ → World κ
  | HookCall.Retry r, w => (s.Handlers.Retry.runFront r w).2
  | HookCall.Send r, w => (s.Handlers.Send.runFront r w).2
  | HookCall.Complete r, w => (s.Handlers.Complete.runFront r w).2

/-- A sequence of invocations, in order. -/
def Session.invokeAll {κ : Type} (s : Session κ) : List HookCall → World κ → World κ
  | [], w => w
  | c :: cs, w => Session.invokeAll s cs (s.invoke c w)

/-- A run of the program: `NewSession`, and when it returns a session, a
sequence of invocations of the hooks at the front of that session's chains. -/
def scenario {Cfg CC κ : Type} (sdk : SDK Cfg CC κ) (awsconfig : Cfg) (AWSDebug : Bool)
    (mc : Collector κ) (cc : CC) (calls : List HookCall) (w : World κ) : World κ :=
  match NewSession sdk awsconfig AWSDebug mc cc w with
  | (none, w) => w
  | (some session, w) => session.invokeAll calls w

/-- The increments that one invocation of the installed hooks makes. -/
def HookCall.increments : HookCall → List Increment
  | HookCall.Retry r => [⟨Counter.APIRetry, requestLabels r⟩]
  | HookCall.Send r => [⟨Counter.APIRequest, requestLabels r⟩]
  | HookCall.Complete r =>
    match r.Error with
    | some _ => [⟨Counter.APIError, requestLabels r⟩]
    | none => []

/-- The increments of a sequence of invocations, in order. -/
def hookIncrements : List HookCall → List Increment
  | [] => []
  | c :: cs => c.increments ++ hookIncrements cs

/-- The increments of a run: one API error for a failed construction, otherwise
those of the invocations in order. -/
def runIncrements {Cfg CC κ : Type} (sdk : SDK Cfg CC κ) (awsconfig : Cfg)
    (calls : List HookCall) : List Increment :=
  match sdk.NewSession awsconfig with
  | Except.error _ => [⟨Counter.APIError, [("service", "AWS"), ("request", "NewSession")]⟩]
  | Except.ok _ => hookIncrements calls

/-! ### Concrete collaborators, for evaluating the definitions -/

/-- A caching handler: it marks the request as served from the cache. -/
def cacheHandler {κ : Type} : Handler κ :=
  fun r w => ({ r with Context := { r.Context with IsCacheHit := true } }, w)

/-- A timing handler: it sets the duration of the request. -/
def timingHandler {κ : Type} : Handler κ :=
  fun r w => ({ r with Context := { r.Context with RequestDuration := 1 } }, w)

/-- A concrete set of collaborators over the recording collector. The
configuration is the region; construction fails when it is empty. Caching and
timing each push a handler to the front of every chain. -/
def demoSDK : SDK String Unit (List Increment) where
  NewSession := fun region =>
    if region = "" then Except.error "MissingRegion: could not find region configuration"
    else Except.ok ⟨⟨[], [], []⟩⟩
  AddCaching := fun s _ =>
    ⟨⟨cacheHandler :: s.Handlers.Send, cacheHandler :: s.Handlers.Retry,
      cacheHandler :: s.Handlers.Complete⟩⟩
  AddTiming := fun s =>
    ⟨⟨timingHandler :: s.Handlers.Send, timingHandler :: s.Handlers.Retry,
      timingHandler :: s.Handlers.Complete⟩⟩

/-- The session `demoSDK` constructs for a region, decorated with caching and
timing. -/
def demoDecorated : Session (List Increment) :=
  demoSDK.AddTiming (demoSDK.AddCaching ⟨⟨[], [], []⟩⟩ ())

/-- A request of the ELBv2 service that completed without error. -/
def okRequest : Request :=
  { ClientInfo := ⟨"elasticloadbalancing"⟩
    Operation := ⟨"DescribeTargetGroups"⟩
    Params := "\x7b\x7d"
    Error := none
    Context := ⟨false, 0⟩ }

/-- A request of the ELBv2 service that ended in a throttling error. -/
def failedRequest : Request :=
  { okRequest with Operation := ⟨"RegisterTargets"⟩, Error := some "Throttling: Rate exceeded" }

/-- The world before anything has happened, for the recording collector. -/
def emptyWorld : World (List Increment) := ⟨[], []⟩

end albsession

namespace backend

/-- C3: `ApplyOptions` applies the options strictly left to right: applying
`xs ++ ys` is applying `xs` and then `ys` to the result, the whole is the left
fold of function application over the list, and the empty list leaves the
options unchanged. -/
theorem ApplyOptions_left_to_right (o : EndpointResolveOptions)
    (xs ys : List EndpointResolveOption) :
    o.ApplyOptions (xs ++ ys) = (o.ApplyOptions xs).ApplyOptions ys
      ∧ o.ApplyOptions xs = xs.foldl (fun acc option => option acc) o
      ∧ o.ApplyOptions [] = o := by
  refine ⟨?_, ?_, rfl⟩
  · induction xs generalizing o with
    | nil => rfl
    | cons x xs ih => exact ih (x o)
  · induction xs generalizing o with
    | nil => rfl
    | cons x xs ih => exact ih (x o)

/-- C2: the default options have a selector that matches no label set, no
readiness gate and no address range; hence the options obtained by applying the
empty option list to the default select none of the nodes of any node list. -/
theorem default_selects_nothing :
    (∀ ls : labels.Set, defaultEndpointResolveOptions.NodeSelector.Matches ls = false)
      ∧ defaultEndpointResolveOptions.PodReadinessGates = []
      ∧ defaultEndpointResolveOptions.cidrs = []
      ∧ ∀ nodes : List labels.Set,
          nodes.filter (defaultEndpointResolveOptions.ApplyOptions []).NodeSelector.Matches
            = [] := by
  refine ⟨fun _ => rfl, rfl, rfl, fun nodes => ?_⟩
  induction nodes with
  | nil => rfl
  | cons n ns ih =>
    rw [List.filter_cons_of_neg (by
      simp [EndpointResolveOptions.ApplyOptions, defaultEndpointResolveOptions, labels.Nothing])]
    exact ih

/-- C4, at the failing input: applying `WithCIDRRanges [cidrA]` and then
`WithCIDRRanges [cidrB]` to the default leaves only `cidrB`; the range of the
first option is gone, and the result is not the first list followed by the
second. -/
theorem WithCIDRRanges_overwrites :
    (defaultEndpointResolveOptions.ApplyOptions
        [WithCIDRRanges [cidrA], WithCIDRRanges [cidrB]]).cidrs = [cidrB]
      ∧ cidrA ∉ (defaultEndpointResolveOptions.ApplyOptions
          [WithCIDRRanges [cidrA], WithCIDRRanges [cidrB]]).cidrs
      ∧ (WithCIDRRanges [cidrB] (WithCIDRRanges [cidrA] defaultEndpointResolveOptions)).cidrs
          ≠ (WithCIDRRanges [cidrA] defaultEndpointResolveOptions).cidrs ++ [cidrB] := by
  refine ⟨rfl, ?_, ?_⟩ <;> decide

/-- C5: `WithPodReadinessGate c` appends `c` to the readiness gates, and applying
the options for `c1, ..., cn` in that order to the default gives exactly
`[c1, ..., cn]`, in order and with duplicates. -/
theorem WithPodReadinessGate_appends (o : EndpointResolveOptions) (c : PodConditionType)
    (cs : List PodConditionType) :
    (WithPodReadinessGate c o).PodReadinessGates = o.PodReadinessGates ++ [c]
      ∧ (o.ApplyOptions (cs.map WithPodReadinessGate)).PodReadinessGates
          = o.PodReadinessGates ++ cs
      ∧ (defaultEndpointResolveOptions.ApplyOptions
          (cs.map WithPodReadinessGate)).PodReadinessGates = cs := by
  have key : ∀ (cs : List PodConditionType) (o : EndpointResolveOptions),
      (o.ApplyOptions (cs.map WithPodReadinessGate)).PodReadinessGates
        = o.PodReadinessGates ++ cs := by
    intro cs
    induction cs with
    | nil => intro o; simp [EndpointResolveOptions.ApplyOptions]
    | cons d ds ih =>
      intro o
      simp only [List.map_cons, EndpointResolveOptions.ApplyOptions]
      rw [ih]
      simp [WithPodReadinessGate]
  refine ⟨rfl, key cs o, ?_⟩
  rw [key]
  rfl

/-- C6: each option leaves the fields of the other options as they were:
`WithNodeSelector s` sets the selector to `s` and keeps the readiness gates and
the address ranges, `WithPodReadinessGate c` keeps the selector and the address
ranges, and `WithCIDRRanges r` keeps the selector and the readiness gates. -/
theorem options_frame (o : EndpointResolveOptions) (s : labels.Selector)
    (c : PodConditionType) (r : List netip.Prefix) :
    ((WithNodeSelector s o).NodeSelector = s
        ∧ (WithNodeSelector s o).PodReadinessGates = o.PodReadinessGates
        ∧ (WithNodeSelector s o).cidrs = o.cidrs)
      ∧ ((WithPodReadinessGate c o).NodeSelector = o.NodeSelector
        ∧ (WithPodReadinessGate c o).cidrs = o.cidrs)
      ∧ ((WithCIDRRanges r o).NodeSelector = o.NodeSelector
        ∧ (WithCIDRRanges r o).PodReadinessGates = o.PodReadinessGates) :=
  ⟨⟨rfl, rfl, rfl⟩, ⟨rfl, rfl⟩, ⟨rfl, rfl⟩⟩


end backend

namespace albsession

/-- Sending a sequence of increments to the recording collector appends it to
the record. -/
theorem replay_recorder (incs : List Increment) (k : List Increment) :
    recorder.replay incs k = k ++ incs := by
  induction incs generalizing k with
  | nil => simp [Collector.replay]
  | cons i is ih =>
    obtain ⟨c, l⟩ := i
    cases c <;> simp only [Collector.replay] <;> rw [ih] <;> simp [recorder]

/-- Replaying two sequences one after the other is replaying their
concatenation. -/
theorem replay_append {κ : Type} (mc : Collector κ) (xs ys : List Increment) (k : κ) :
    mc.replay (xs ++ ys) k = mc.replay ys (mc.replay xs k) := by
  induction xs generalizing k with
  | nil => rfl
  | cons i is ih =>
    obtain ⟨c, l⟩ := i
    cases c <;> simp [Collector.replay, ih]

/-- The collector after one invocation through a session whose front handlers
are the hooks of `NewSession` is the collector before, with the increments of
that invocation. -/
theorem invoke_collector {κ : Type} (mc : Collector κ) (AWSDebug : Bool) (base : Handlers κ)
    (c : HookCall) (w : World κ) :
    ((⟨⟨sendHook AWSDebug mc :: base.Send, retryHook mc :: base.Retry,
        completeHook AWSDebug mc :: base.Complete⟩⟩ : Session κ).invoke c w).collector
      = mc.replay c.increments w.collector := by
  cases c with
  | Retry r => rfl
  | Send r =>
    cases AWSDebug <;> rfl
  | Complete r =>
    cases hE : r.Error <;> cases AWSDebug <;>
      simp [Session.invoke, HandlerList.runFront, completeHook, HookCall.increments, hE,
        Collector.replay]

/-- The collector after a sequence of invocations through such a session. -/
theorem invokeAll_collector {κ : Type} (mc : Collector κ) (AWSDebug : Bool) (base : Handlers κ)
    (calls : List HookCall) (w : World κ) :
    ((⟨⟨sendHook AWSDebug mc :: base.Send, retryHook mc :: base.Retry,
        completeHook AWSDebug mc :: base.Complete⟩⟩ : Session κ).invokeAll calls w).collector
      = mc.replay (hookIncrements calls) w.collector := by
  induction calls generalizing w with
  | nil => rfl
  | cons c cs ih =>
    simp only [Session.invokeAll, hookIncrements, replay_append]
    rw [ih, invoke_collector]

/-- The result of `NewSession` when the base construction fails. -/
theorem NewSession_error {Cfg CC κ : Type} (sdk : SDK Cfg CC κ) (awsconfig : Cfg)
    (AWSDebug : Bool) (mc : Collector κ) (cc : CC) (w : World κ) (err : String)
    (h : sdk.NewSession awsconfig = Except.error err) :
    NewSession sdk awsconfig AWSDebug mc cc w
      = (none, ⟨mc.IncAPIErrorCount [("service", "AWS"), ("request", "NewSession")] w.collector,
          w.glog ++ [LogLine.sessionFailed err]⟩) := by
  simp [NewSession, h]

/-- The result of `NewSession` when the base construction succeeds. -/
theorem NewSession_ok {Cfg CC κ : Type} (sdk : SDK Cfg CC κ) (awsconfig : Cfg)
    (AWSDebug : Bool) (mc : Collector κ) (cc : CC) (w : World κ) (s0 : Session κ)
    (h : sdk.NewSession awsconfig = Except.ok s0) :
    NewSession sdk awsconfig AWSDebug mc cc w
      = (some ⟨⟨sendHook AWSDebug mc :: (sdk.AddTiming (sdk.AddCaching s0 cc)).Handlers.Send,
          retryHook mc :: (sdk.AddTiming (sdk.AddCaching s0 cc)).Handlers.Retry,
          completeHook AWSDebug mc
            :: (sdk.AddTiming (sdk.AddCaching s0 cc)).Handlers.Complete⟩⟩, w) := by
  simp [NewSession, h, HandlerList.PushFront]

/-- C1: when the base construction fails, `NewSession` returns no session (so no
handler is installed on anything) and the collector receives exactly one
increment, of the API error count with the labels
`service = AWS, request = NewSession`; no request or retry count is incremented.
The debug flag, the collector and the cache configuration are arbitrary. -/
theorem NewSession_failure {Cfg CC κ : Type} (sdk : SDK Cfg CC κ) (awsconfig : Cfg)
    (AWSDebug : Bool) (mc : Collector κ) (cc : CC) (w : World κ) (err : String)
    (h : sdk.NewSession awsconfig = Except.error err) :
    (NewSession sdk awsconfig AWSDebug mc cc w).1 = none
      ∧ (NewSession sdk awsconfig AWSDebug mc cc w).2.collector
          = mc.IncAPIErrorCount [("service", "AWS"), ("request", "NewSession")] w.collector
      ∧ (NewSession sdk awsconfig AWSDebug mc cc w).2.collector
          = mc.replay [⟨Counter.APIError, [("service", "AWS"), ("request", "NewSession")]⟩]
              w.collector
      ∧ (NewSession sdk awsconfig AWSDebug mc cc w).2.glog
          = w.glog ++ [LogLine.sessionFailed err] := by
  rw [NewSession_error sdk awsconfig AWSDebug mc cc w err h]
  exact ⟨rfl, rfl, rfl, rfl⟩

/-- C1 at the recording collector: an empty region fails the construction, the
result is nil and the record holds the one API error increment. -/
theorem NewSession_failure_witness :
    demoSDK.NewSession "" = Except.error "MissingRegion: could not find region configuration"
      ∧ (NewSession demoSDK "" true recorder () emptyWorld).1 = none
      ∧ (NewSession demoSDK "" true recorder () emptyWorld).2.collector
          = [⟨Counter.APIError, [("service", "AWS"), ("request", "NewSession")]⟩] :=
  ⟨rfl,
    (NewSession_failure demoSDK "" true recorder () emptyWorld
      "MissingRegion: could not find region configuration" rfl).1,
    (NewSession_failure demoSDK "" true recorder () emptyWorld
      "MissingRegion: could not find region configuration" rfl).2.1⟩

/-- C7: when the base construction succeeds, `NewSession` returns a session whose
Complete chain is the completion hook followed by the Complete chain of the
decorated session. Every invocation of that installed hook increments the API
error count once, with the service and operation of the request as labels, when
the request has an error, and leaves the collector as it was when the request has
none; the request itself is not changed. On the recording collector the record
changes if and only if the request has an error, and then by exactly that one
increment. -/
theorem completeHook_counts_errors {Cfg CC κ : Type} (sdk : SDK Cfg CC κ) (awsconfig : Cfg)
    (AWSDebug : Bool) (mc : Collector κ) (cc : CC) (w0 w : World κ) (s0 : Session κ)
    (r : Request) (t : World (List Increment))
    (h : sdk.NewSession awsconfig = Except.ok s0) :
    (∃ s, (NewSession sdk awsconfig AWSDebug mc cc w0).1 = some s
        ∧ s.Handlers.Complete
            = completeHook AWSDebug mc
                :: (sdk.AddTiming (sdk.AddCaching s0 cc)).Handlers.Complete
        ∧ s.Handlers.Complete.head? = some (completeHook AWSDebug mc)
        ∧ ∀ (q : Request) (v : World κ),
            (s.Handlers.Complete.runFront q v).1 = q
              ∧ (s.Handlers.Complete.runFront q v).2.collector
                  = (match q.Error with
                    | some _ => mc.IncAPIErrorCount (requestLabels q) v.collector
                    | none => v.collector)
              ∧ (s.invoke (HookCall.Complete q) v).collector
                  = mc.replay (HookCall.Complete q).increments v.collector)
      ∧ (completeHook AWSDebug mc r w).2.collector
          = (match r.Error with
            | some _ => mc.IncAPIErrorCount (requestLabels r) w.collector
            | none => w.collector)
      ∧ (completeHook AWSDebug recorder r t).2.collector
          = t.collector ++ (match r.Error with
            | some _ => [⟨Counter.APIError, requestLabels r⟩]
            | none => [])
      ∧ ((completeHook AWSDebug recorder r t).2.collector ≠ t.collector ↔ r.Error ≠ none)
      ∧ (completeHook AWSDebug mc r w).1 = r := by
  have hgen : ∀ (q : Request) (v : World κ), (completeHook AWSDebug mc q v).2.collector
      = (match q.Error with
        | some _ => mc.IncAPIErrorCount (requestLabels q) v.collector
        | none => v.collector) := by
    intro q v
    cases hE : q.Error <;> cases AWSDebug <;> simp [completeHook, hE]
  have hrec : (completeHook AWSDebug recorder r t).2.collector
      = t.collector ++ (match r.Error with
        | some _ => [⟨Counter.APIError, requestLabels r⟩]
        | none => []) := by
    cases hE : r.Error <;> cases AWSDebug <;> simp [completeHook, hE, recorder]
  refine ⟨?_, hgen r w, hrec, ?_, rfl⟩
  · rw [NewSession_ok sdk awsconfig AWSDebug mc cc w0 s0 h]
    refine ⟨_, rfl, rfl, rfl, fun q v => ⟨rfl, hgen q v, ?_⟩⟩
    exact invoke_collector mc AWSDebug _ (HookCall.Complete q) v
  · rw [hrec]
    cases hE : r.Error <;> simp

/-- C7 on `demoSDK` with the recording collector: the construction succeeds, the
returned session has the completion hook at the front of its Complete chain,
before the timing and caching handlers, and running that installed hook on a
failed request records one API error with the request's labels, on a request
without error nothing. -/
theorem completeHook_counts_errors_witness :
    demoSDK.NewSession "us-west-2" = Except.ok ⟨⟨[], [], []⟩⟩
      ∧ ∃ s, (NewSession demoSDK "us-west-2" true recorder () emptyWorld).1 = some s
          ∧ s.Handlers.Complete = [completeHook true recorder, timingHandler, cacheHandler]
          ∧ (s.Handlers.Complete.runFront failedRequest emptyWorld).2.collector
              = [⟨Counter.APIError,
                  [("service", "elasticloadbalancing"), ("operation", "RegisterTargets")]⟩]
          ∧ (s.Handlers.Complete.runFront okRequest emptyWorld).2.collector = [] :=
  ⟨rfl,
    match (completeHook_counts_errors demoSDK "us-west-2" true recorder () emptyWorld
      emptyWorld ⟨⟨[], [], []⟩⟩ failedRequest emptyWorld rfl).1 with
    | ⟨s, hs, hchain, _, hrun⟩ =>
      ⟨s, hs, hchain, (hrun failedRequest emptyWorld).2.1, (hrun okRequest emptyWorld).2.1⟩⟩

/-- C8: when the base construction succeeds, `NewSession` returns a session whose
Send chain is the send hook followed by the Send chain of the decorated session.
Every invocation of that installed hook, with debug mode on or off, increments
the API request count once, with the service and operation of the request as
labels, and nothing else of the collector, and leaves the request unchanged; it
writes the request payload line to the log if and only if debug mode is on. -/
theorem sendHook_counts_requests {Cfg CC κ : Type} (sdk : SDK Cfg CC κ) (awsconfig : Cfg)
    (AWSDebug : Bool) (mc : Collector κ) (cc : CC) (w0 w : World κ) (s0 : Session κ)
    (r : Request) (t : World (List Increment))
    (h : sdk.NewSession awsconfig = Except.ok s0) :
    (∃ s, (NewSession sdk awsconfig AWSDebug mc cc w0).1 = some s
        ∧ s.Handlers.Send
            = sendHook AWSDebug mc :: (sdk.AddTiming (sdk.AddCaching s0 cc)).Handlers.Send
        ∧ s.Handlers.Send.head? = some (sendHook AWSDebug mc)
        ∧ ∀ (q : Request) (v : World κ),
            (s.Handlers.Send.runFront q v).1 = q
              ∧ (s.Handlers.Send.runFront q v).2.collector
                  = mc.IncAPIRequestCount (requestLabels q) v.collector
              ∧ (s.invoke (HookCall.Send q) v).collector
                  = mc.replay (HookCall.Send q).increments v.collector
              ∧ (s.Handlers.Send.runFront q v).2.glog
                  = v.glog ++ (if AWSDebug then
                      [LogLine.requestPayload q.ClientInfo.ServiceName q.Operation.Name
                        q.Params]
                    else []))
      ∧ (sendHook AWSDebug mc r w).2.collector
          = mc.IncAPIRequestCount (requestLabels r) w.collector
      ∧ (sendHook AWSDebug recorder r t).2.collector
          = t.collector ++ [⟨Counter.APIRequest, requestLabels r⟩]
      ∧ (sendHook AWSDebug mc r w).2.glog
          = w.glog ++ (if AWSDebug then
              [LogLine.requestPayload r.ClientInfo.ServiceName r.Operation.Name r.Params]
            else [])
      ∧ ((sendHook AWSDebug mc r w).2.glog
            = w.glog ++
              [LogLine.requestPayload r.ClientInfo.ServiceName r.Operation.Name r.Params]
          ↔ AWSDebug = true)
      ∧ (sendHook AWSDebug mc r w).1 = r := by
  have hcol : ∀ (q : Request) (v : World κ), (sendHook AWSDebug mc q v).2.collector
      = mc.IncAPIRequestCount (requestLabels q) v.collector := by
    intro q v
    cases AWSDebug <;> rfl
  have hlog : ∀ (q : Request) (v : World κ), (sendHook AWSDebug mc q v).2.glog
      = v.glog ++ (if AWSDebug then
          [LogLine.requestPayload q.ClientInfo.ServiceName q.Operation.Name q.Params]
        else []) := by
    intro q v
    cases AWSDebug <;> simp [sendHook]
  refine ⟨?_, hcol r w, ?_, hlog r w, ?_, rfl⟩
  · rw [NewSession_ok sdk awsconfig AWSDebug mc cc w0 s0 h]
    refine ⟨_, rfl, rfl, rfl, fun q v => ⟨rfl, hcol q v, ?_, hlog q v⟩⟩
    exact invoke_collector mc AWSDebug _ (HookCall.Send q) v
  · cases AWSDebug <;> rfl
  · cases AWSDebug <;> simp [sendHook]

/-- C8 on `demoSDK` with the recording collector and debug mode off: the
construction succeeds, the returned session has the send hook at the front of
its Send chain, before the timing and caching handlers, and running that
installed hook on a request records one API request increment with the request's
labels and writes no line to the log. -/
theorem sendHook_counts_requests_witness :
    demoSDK.NewSession "us-west-2" = Except.ok ⟨⟨[], [], []⟩⟩
      ∧ ∃ s, (NewSession demoSDK "us-west-2" false recorder () emptyWorld).1 = some s
          ∧ s.Handlers.Send = [sendHook false recorder, timingHandler, cacheHandler]
          ∧ (s.Handlers.Send.runFront okRequest emptyWorld).2.collector
              = [⟨Counter.APIRequest,
                  [("service", "elasticloadbalancing"),
                    ("operation", "DescribeTargetGroups")]⟩]
          ∧ (s.Handlers.Send.runFront okRequest emptyWorld).2.glog = [] :=
  ⟨rfl,
    match (sendHook_counts_requests demoSDK "us-west-2" false recorder () emptyWorld
      emptyWorld ⟨⟨[], [], []⟩⟩ okRequest emptyWorld rfl).1 with
    | ⟨s, hs, hchain, _, hrun⟩ =>
      ⟨s, hs, hchain, (hrun okRequest emptyWorld).2.1, (hrun okRequest emptyWorld).2.2.2⟩⟩

/-- C9: when the base construction succeeds, `NewSession` returns a session whose
Retry chain is the retry hook followed by the whole Retry chain of the session
as caching and timing left it; every invocation of the hook increments the API
retry count once, with the service and operation of the request as labels, and
changes nothing else: not the log, not the request, no other counter. -/
theorem retryHook_first {Cfg CC κ : Type} (sdk : SDK Cfg CC κ) (awsconfig : Cfg)
    (AWSDebug : Bool) (mc : Collector κ) (cc : CC) (w0 w : World κ) (s0 : Session κ)
    (r : Request) (t : World (List Increment))
    (h : sdk.NewSession awsconfig = Except.ok s0) :
    (∃ s, (NewSession sdk awsconfig AWSDebug mc cc w0).1 = some s
        ∧ s.Handlers.Retry
            = retryHook mc :: (sdk.AddTiming (sdk.AddCaching s0 cc)).Handlers.Retry
        ∧ s.Handlers.Retry.head? = some (retryHook mc))
      ∧ retryHook mc r w
          = (r, ⟨mc.IncAPIRetryCount (requestLabels r) w.collector, w.glog⟩)
      ∧ (retryHook recorder r t).2.collector
          = t.collector ++ [⟨Counter.APIRetry, requestLabels r⟩] := by
  refine ⟨?_, rfl, rfl⟩
  rw [NewSession_ok sdk awsconfig AWSDebug mc cc w0 s0 h]
  exact ⟨_, rfl, rfl, rfl⟩

/-- C9 on `demoSDK`, whose caching and timing each put a handler at the front of
the Retry chain: the returned chain is the retry hook, then the timing handler,
then the caching handler, and one invocation on a failed request records one
API retry with the request's labels. -/
theorem retryHook_first_witness :
    demoSDK.NewSession "us-west-2" = Except.ok ⟨⟨[], [], []⟩⟩
      ∧ (∃ s, (NewSession demoSDK "us-west-2" false recorder () emptyWorld).1 = some s
          ∧ s.Handlers.Retry = [retryHook recorder, timingHandler, cacheHandler]
          ∧ s.Handlers.Retry.head? = some (retryHook recorder))
      ∧ (retryHook recorder failedRequest emptyWorld).2.collector
          = [⟨Counter.APIRetry,
              [("service", "elasticloadbalancing"), ("operation", "RegisterTargets")]⟩] :=
  ⟨rfl,
    (retryHook_first demoSDK "us-west-2" false recorder () emptyWorld emptyWorld
      ⟨⟨[], [], []⟩⟩ failedRequest emptyWorld rfl).1,
    (retryHook_first demoSDK "us-west-2" false recorder () emptyWorld emptyWorld
      ⟨⟨[], [], []⟩⟩ failedRequest emptyWorld rfl).2.2⟩

/-- C10: the debug flag changes log output only. For every configuration,
collector and cache configuration, either `NewSession` returns nil for both
values of the flag, or for both it returns the same decorated session with the
three hooks at the front of their chains; the send and completion hooks of the
two flags agree on the request and on the collector for every input; and after
`NewSession` and any sequence of invocations of the installed hooks the
collector has received the same sequence of increments for both values of the
flag, namely `runIncrements`, which does not depend on the flag. -/
theorem debug_affects_log_only {Cfg CC κ : Type} (sdk : SDK Cfg CC κ) (awsconfig : Cfg)
    (mc : Collector κ) (cc : CC) (w : World κ) (calls : List HookCall) (r : Request) :
    ((NewSession sdk awsconfig true mc cc w).1.isSome
        = (NewSession sdk awsconfig false mc cc w).1.isSome)
      ∧ ((∀ AWSDebug, (NewSession sdk awsconfig AWSDebug mc cc w).1 = none)
        ∨ ∃ base : Handlers κ, ∀ AWSDebug,
            (NewSession sdk awsconfig AWSDebug mc cc w).1
              = some ⟨⟨sendHook AWSDebug mc :: base.Send, retryHook mc :: base.Retry,
                  completeHook AWSDebug mc :: base.Complete⟩⟩)
      ∧ ((sendHook true mc r w).1 = (sendHook false mc r w).1
        ∧ (sendHook true mc r w).2.collector = (sendHook false mc r w).2.collector
        ∧ (completeHook true mc r w).1 = (completeHook false mc r w).1
        ∧ (completeHook true mc r w).2.collector = (completeHook false mc r w).2.collector)
      ∧ (NewSession sdk awsconfig true mc cc w).2.collector
          = (NewSession sdk awsconfig false mc cc w).2.collector
      ∧ (scenario sdk awsconfig true mc cc calls w).collector
          = (scenario sdk awsconfig false mc cc calls w).collector
      ∧ ∀ AWSDebug, (scenario sdk awsconfig AWSDebug mc cc calls w).collector
          = mc.replay (runIncrements sdk awsconfig calls) w.collector := by
  have hrun : ∀ AWSDebug, (scenario sdk awsconfig AWSDebug mc cc calls w).collector
      = mc.replay (runIncrements sdk awsconfig calls) w.collector := by
    intro AWSDebug
    cases hb : sdk.NewSession awsconfig with
    | error err =>
      simp only [scenario, runIncrements, hb,
        NewSession_error sdk awsconfig AWSDebug mc cc w err hb]
      rfl
    | ok s0 =>
      simp only [scenario, runIncrements, hb,
        NewSession_ok sdk awsconfig AWSDebug mc cc w s0 hb]
      exact invokeAll_collector mc AWSDebug _ calls w
  have hhooks : (sendHook true mc r w).1 = (sendHook false mc r w).1
      ∧ (sendHook true mc r w).2.collector = (sendHook false mc r w).2.collector
      ∧ (completeHook true mc r w).1 = (completeHook false mc r w).1
      ∧ (completeHook true mc r w).2.collector
          = (completeHook false mc r w).2.collector := by
    refine ⟨rfl, rfl, rfl, ?_⟩
    cases hE : r.Error <;> simp [completeHook, hE]
  refine ⟨?_, ?_, hhooks, ?_, ?_, hrun⟩
  · cases hb : sdk.NewSession awsconfig with
    | error err =>
      rw [NewSession_error sdk awsconfig true mc cc w err hb,
        NewSession_error sdk awsconfig false mc cc w err hb]
    | ok s0 =>
      rw [NewSession_ok sdk awsconfig true mc cc w s0 hb,
        NewSession_ok sdk awsconfig false mc cc w s0 hb]
      rfl
  · cases hb : sdk.NewSession awsconfig with
    | error err =>
      left
      intro AWSDebug
      rw [NewSession_error sdk awsconfig AWSDebug mc cc w err hb]
    | ok s0 =>
      right
      refine ⟨(sdk.AddTiming (sdk.AddCaching s0 cc)).Handlers, fun AWSDebug => ?_⟩
      rw [NewSession_ok sdk awsconfig AWSDebug mc cc w s0 hb]
  · cases hb : sdk.NewSession awsconfig with
    | error err =>
      rw [NewSession_error sdk awsconfig true mc cc w err hb,
        NewSession_error sdk awsconfig false mc cc w err hb]
    | ok s0 =>
      rw [NewSession_ok sdk awsconfig true mc cc w s0 hb,
        NewSession_ok sdk awsconfig false mc cc w s0 hb]
  · rw [hrun true, hrun false]

/-- A run evaluated on the recording collector: after a successful construction
with debug mode on, a send, a retry and a failed completion followed by a
successful completion leave exactly three increments in the record. -/
theorem scenario_record_example :
    (scenario demoSDK "us-west-2" true recorder ()
        [HookCall.Send failedRequest, HookCall.Retry failedRequest,
          HookCall.Complete failedRequest, HookCall.Complete okRequest] emptyWorld).collector
      = [⟨Counter.APIRequest,
            [("service", "elasticloadbalancing"), ("operation", "RegisterTargets")]⟩,
          ⟨Counter.APIRetry,
            [("service", "elasticloadbalancing"), ("operation", "RegisterTargets")]⟩,
          ⟨Counter.APIError,
            [("service", "elasticloadbalancing"), ("operation", "RegisterTargets")]⟩] := by
  decide

/-- The debug flag does change the log: the same failed completion writes two
lines with debug mode on and one with debug mode off. -/
theorem scenario_log_example :
    (scenario demoSDK "us-west-2" true recorder ()
        [HookCall.Complete failedRequest] emptyWorld).glog
      = [LogLine.completed false "elasticloadbalancing" "RegisterTargets" 0,
          LogLine.failedRequest "elasticloadbalancing" "RegisterTargets" "\x7b\x7d"
            "Throttling: Rate exceeded"]
      ∧ (scenario demoSDK "us-west-2" false recorder ()
          [HookCall.Complete failedRequest] emptyWorld).glog
        = [LogLine.completed false "elasticloadbalancing" "RegisterTargets" 0] := by
  decide

end albsession
